import Mathlib

/-!
# Shallow embedding of the StaticResCache userscript (src/main.js)

This file embeds the caching and revalidation engine of the userscript:
the resource classifier (`isStaticResource`), the freshness policy
(`shouldUpdate` with `CACHE_MAX_AGE`), the cache store model
(`saveToCache` over a URL-keyed map), the revalidation engine
(`updateCacheInBackground`), and the two interception adapters
(`xhrSend` for the wrapped `XMLHttpRequest.send`, `interceptFetch` for
the wrapped `fetch`).

Asynchronous I/O (IndexedDB reads/writes, GM network requests) is
modelled by passing outcomes explicitly: a store lookup is an
`Except Unit (Option CacheEntry)` (`.error` = rejected read), a network
call is an `Except Unit GmResponse` (`.error` = transport failure), and
a store write that might reject is a `putOk : Bool` flag. `Date.now()`
is an explicit `now : Nat` (epoch milliseconds).
-/

namespace StaticResCache

/-- Raw byte payloads: each element is one byte value (0..255 in practice). -/
abbrev Bytes := List Nat

/-- The fixed extension allow-list from src/main.js lines 16-19 (and the
identical local copy inside `isStaticResource`, lines 130-133). -/
def STATIC_EXTENSIONS : List String :=
  [".js", ".css", ".png", ".jpg", ".jpeg",
   ".gif", ".svg", ".woff", ".woff2", ".ttf"]

/-- `CACHE_MAX_AGE = 24 * 60 * 60 * 1000` (line 23): 24 hours in milliseconds. -/
def CACHE_MAX_AGE : Nat := 24 * 60 * 60 * 1000

/-- The code points of a string, for modelling the JS string operations
(`toLowerCase`, `toUpperCase`, `endsWith`) at the code-point level. -/
def strCodes (s : String) : List Nat := s.data.map Char.toNat

/-- ASCII lowering of one code point, as `toLowerCase` acts on the ASCII
range (URLs and methods in this program are ASCII). -/
def lowerCode (n : Nat) : Nat := if 65 ≤ n ∧ n ≤ 90 then n + 32 else n

/-- ASCII raising of one code point, as `toUpperCase` acts on the ASCII
range. -/
def upperCode (n : Nat) : Nat := if 97 ≤ n ∧ n ≤ 122 then n - 32 else n

/-- JS `s.endsWith(suffix)`: the suffix's code points are a suffix of the
string's code points. -/
def jsEndsWith (s suffix : String) : Bool :=
  (strCodes suffix).isSuffixOf (strCodes s)

/-- The dual-encoded body `{ buffer, text }` stored in a cache entry:
raw bytes plus the text view produced by `new TextDecoder().decode(buffer)`. -/
structure PayloadData where
  buffer : Bytes
  text : String
deriving DecidableEq, Repr

/-- One record of the IndexedDB object store (keyPath `url`), as written by
`saveToCache` (lines 73-78): `{ url, data, etag, timestamp }`. -/
structure CacheEntry where
  url : String
  data : PayloadData
  etag : Option String
  timestamp : Nat
deriving DecidableEq, Repr

/-- The URL-keyed store: at most one entry per URL (IndexedDB keyPath). -/
def CacheStore := String → Option CacheEntry

/-- `saveToCache(url, data, etag)` (lines 69-92): `store.put` of
`{ url, data, etag, timestamp: Date.now() }` — an upsert keyed by `url`.
`now` is the `Date.now()` at the time of the put. -/
def saveToCache (url : String) (data : PayloadData) (etag : Option String)
    (now : Nat) (store : CacheStore) : CacheStore :=
  fun u => if u = url then some ⟨url, data, etag, now⟩ else store u

/-- `shouldUpdate(cached)` (lines 95-98): `Date.now() - cached.timestamp >
CACHE_MAX_AGE`. With JS numbers a clock earlier than the entry's timestamp
gives a negative age, hence `false`; natural-number truncated subtraction
gives `0`, hence also `false` — the two agree. -/
def shouldUpdate (cached : CacheEntry) (now : Nat) : Bool :=
  decide (now - cached.timestamp > CACHE_MAX_AGE)

/-- `isStaticResource(url)` (lines 127-140): false for a non-string or
falsy (empty) URL, otherwise tests whether
`url.toLowerCase().endsWith(ext)` for one of the fixed extensions
(modelled at the code-point level). The `try/catch` can never fire on
the pure string operations, so classification is total. -/
def isStaticResource (url : String) : Bool :=
  if url = "" then false
  else STATIC_EXTENSIONS.any (fun ext =>
    (strCodes ext).isSuffixOf ((strCodes url).map lowerCode))

/-- The result of a `gmFetch` network call that completed with a response
(lines 328-338): HTTP status, raw body bytes (`arrayBuffer`), and the
value of `response.headers.get('ETag')` (`none` when the origin omits the
header — `Headers.get` returns `null` then). -/
structure GmResponse where
  status : Nat
  body : Bytes
  etagHeader : Option String
deriving DecidableEq, Repr

/-- `response.ok` as computed by `gmFetch` (line 330):
`status >= 200 && status < 300`. -/
def respOk (r : GmResponse) : Bool :=
  decide (200 ≤ r.status) && decide (r.status < 300)

/-- The replacement character U+FFFD emitted by `TextDecoder` for
malformed sequences. -/
def replacementChar : Char := Char.ofNat 0xFFFD

/-- Is a byte a UTF-8 continuation byte (10xxxxxx)? -/
def isCont (b : Nat) : Bool := decide (0x80 ≤ b) && decide (b ≤ 0xBF)

/-- Allowed range of the first continuation byte after a 3-byte lead
(E0 tightens to A0..BF, ED to 80..9F — excluding overlongs/surrogates). -/
def cont3First (b c : Nat) : Bool :=
  if b = 0xE0 then decide (0xA0 ≤ c) && decide (c ≤ 0xBF)
  else if b = 0xED then decide (0x80 ≤ c) && decide (c ≤ 0x9F)
  else isCont c

/-- Allowed range of the first continuation byte after a 4-byte lead
(F0 tightens to 90..BF, F4 to 80..8F). -/
def cont4First (b c : Nat) : Bool :=
  if b = 0xF0 then decide (0x90 ≤ c) && decide (c ≤ 0xBF)
  else if b = 0xF4 then decide (0x80 ≤ c) && decide (c ≤ 0x8F)
  else isCont c

/-- UTF-8 decoding of a byte list, modelling `new TextDecoder().decode`:
valid sequences decode to their code point, malformed bytes decode to
U+FFFD and decoding resumes after the offending lead byte (the WHATWG
error recovery, approximated). The first argument is fuel; each step
consumes at least one byte, so fuel equal to the list length (as supplied
by `utf8Decode`) is never exhausted. -/
def utf8DecodeGo : Nat → List Nat → List Char
  | 0, _ => []
  | _ + 1, [] => []
  | fuel + 1, b :: rest =>
    if b ≤ 0x7F then Char.ofNat b :: utf8DecodeGo fuel rest
    else if decide (0xC2 ≤ b) && decide (b ≤ 0xDF) then
      match rest with
      | c1 :: rest1 =>
        if isCont c1 then
          Char.ofNat ((b - 0xC0) * 0x40 + (c1 - 0x80)) :: utf8DecodeGo fuel rest1
        else replacementChar :: utf8DecodeGo fuel rest
      | [] => [replacementChar]
    else if decide (0xE0 ≤ b) && decide (b ≤ 0xEF) then
      match rest with
      | c1 :: c2 :: rest2 =>
        if cont3First b c1 && isCont c2 then
          Char.ofNat ((b - 0xE0) * 0x1000 + (c1 - 0x80) * 0x40 + (c2 - 0x80))
            :: utf8DecodeGo fuel rest2
        else replacementChar :: utf8DecodeGo fuel rest
      | _ => [replacementChar]
    else if decide (0xF0 ≤ b) && decide (b ≤ 0xF4) then
      match rest with
      | c1 :: c2 :: c3 :: rest3 =>
        if cont4First b c1 && isCont c2 && isCont c3 then
          Char.ofNat ((b - 0xF0) * 0x40000 + (c1 - 0x80) * 0x1000
              + (c2 - 0x80) * 0x40 + (c3 - 0x80))
            :: utf8DecodeGo fuel rest3
        else replacementChar :: utf8DecodeGo fuel rest
      | _ => [replacementChar]
    else replacementChar :: utf8DecodeGo fuel rest

/-- `new TextDecoder().decode(buffer)`: UTF-8 decode of the byte payload. -/
def utf8Decode (bs : Bytes) : String := String.mk (utf8DecodeGo bs.length bs)

/-- The conditional-request headers built by `updateCacheInBackground`
(lines 104-108): `If-None-Match` is attached exactly when `cached.etag`
is truthy — a JS `null` (`none`) or the empty string are falsy and attach
nothing. -/
def revalidationHeaders (cached : CacheEntry) : List (String × String) :=
  match cached.etag with
  | some e => if e = "" then [] else [("If-None-Match", e)]
  | none => []

/-- Outcome of the revalidation network call: a completed response, or a
transport failure (`gmFetch` rejected). -/
inductive RevalOutcome where
  | success (r : GmResponse)
  | failure
deriving DecidableEq, Repr

/-- The store effect of `updateCacheInBackground(url, cached)`
(lines 101-125) given the network outcome. On 304 it re-puts the existing
payload and etag with a fresh timestamp; on `response.ok` it puts the new
bytes, their decoded text, and the response's ETag header; on any other
status, on transport failure, or on a rejected put (`putOk = false`) the
surrounding `try/catch` swallows the error and the store is unchanged.
The function is total: no outcome propagates an error to the caller. -/
def updateCacheInBackground (url : String) (cached : CacheEntry)
    (outcome : RevalOutcome) (now : Nat) (putOk : Bool)
    (store : CacheStore) : CacheStore :=
  match outcome with
  | .failure => store
  | .success r =>
    if r.status = 304 then
      if putOk then saveToCache url cached.data cached.etag now store else store
    else if respOk r then
      if putOk then
        saveToCache url ⟨r.body, utf8Decode r.body⟩ r.etagHeader now store
      else store
    else store

/-- The `resource` argument of the wrapped `fetch`: a string, a `URL`
object, a `Request` object, or anything else. -/
inductive ResourceInput where
  | str (s : String)
  | urlObj (href : String)
  | request (url : String)
  | other
deriving DecidableEq, Repr

/-- `getUrlString(resource)` (lines 142-152): string → itself, `URL` →
`.href`, `Request` → `.url`, anything else → `null`. -/
def getUrlString : ResourceInput → Option String
  | .str s => some s
  | .urlObj h => some h
  | .request u => some u
  | .other => none

/-- The `init` options object of the wrapped `fetch`: only the `method`
field is inspected by the interceptor. -/
structure FetchInit where
  method : Option String
deriving DecidableEq, Repr

/-- The method test of the wrapped `fetch` (line 254):
`!init || init.method === undefined || init.method === 'GET'` — note the
strict, case-sensitive comparison with the string `'GET'`. -/
def fetchMethodEligible : Option FetchInit → Bool
  | none => true
  | some i =>
    match i.method with
    | none => true
    | some m => m == "GET"

/-- The method test of the wrapped `xhr.send` (line 211):
`this._method?.toUpperCase() === 'GET'` — an absent method is not
eligible (optional chaining yields `undefined`), otherwise the comparison
is case-insensitive via `toUpperCase` (modelled at the code-point
level). -/
def xhrMethodEligible : Option String → Bool
  | none => false
  | some m => (strCodes m).map upperCode == strCodes "GET"

/-- The `Content-Type` chosen on the fetch hit path (lines 266-272):
case-sensitive `url.endsWith` chain over a subset of the extensions, with
`application/octet-stream` as the default. -/
def contentTypeFor (url : String) : String :=
  if jsEndsWith url ".js" then "application/javascript"
  else if jsEndsWith url ".css" then "text/css"
  else if jsEndsWith url ".png" then "image/png"
  else if jsEndsWith url ".jpg" || jsEndsWith url ".jpeg" then "image/jpeg"
  else if jsEndsWith url ".gif" then "image/gif"
  else if jsEndsWith url ".svg" then "image/svg+xml"
  else "application/octet-stream"

/-- What the wrapped `fetch` returns to its caller. `passthroughOriginal`
is `originalFetch.apply(this, arguments)` — the real, unintercepted
network call. `cachedResponse` is the synthesized `new Response(...)`
from the hit path. `rebuiltResponse` is the `new Response(buffer, ...)`
reconstructed after a successful `gmFetch` on the miss path.
`rawResponse` is the non-ok `gmFetch` result returned as-is. -/
inductive FetchOutput where
  | passthroughOriginal
  | cachedResponse (status : Nat) (body : Bytes) (contentType : String)
      (xCache : String) (revalidating : Bool)
  | rebuiltResponse (status : Nat) (body : Bytes)
  | rawResponse (status : Nat)
deriving DecidableEq, Repr

/-- Does a fetch outcome reach the network (the original fetch or
`gmFetch`)? Only the synthesized cache hit does not. -/
def fetchUsesNetwork : FetchOutput → Bool
  | .passthroughOriginal => true
  | .cachedResponse _ _ _ _ _ => false
  | .rebuiltResponse _ _ => true
  | .rawResponse _ => true

/-- The wrapped `fetch` (lines 247-307), as a function of the explicit
I/O outcomes, returning what the caller sees and the store state after
the call itself completes (a fire-and-forget revalidation started on a
stale hit runs separately; its effect is `updateCacheInBackground`).
Branches, in source order: unresolvable resource → original fetch; the
method/extension gate; store hit → synthesized 200 response built from a
copy of the cached bytes, plus `X-Cache: HIT` and the extension-derived
content type; store miss → `gmFetch`, and on `response.ok` a
`saveToCache` followed by a rebuilt response, on non-ok the raw response;
a rejected `gmFetch` or a rejected `saveToCache` is caught by the inner
`catch` and falls back to the original fetch; a rejected `getCached`
escapes to the outer `catch`, which also falls back to the original
fetch. -/
def interceptFetch (resource : ResourceInput) (init : Option FetchInit)
    (lookup : Except Unit (Option CacheEntry)) (net : Except Unit GmResponse)
    (now : Nat) (putOk : Bool) (store : CacheStore) :
    FetchOutput × CacheStore :=
  match getUrlString resource with
  | none => (.passthroughOriginal, store)
  | some url =>
    if fetchMethodEligible init && isStaticResource url then
      match lookup with
      | .error _ => (.passthroughOriginal, store)
      | .ok (some cached) =>
        (.cachedResponse 200 cached.data.buffer (contentTypeFor url) "HIT"
          (shouldUpdate cached now), store)
      | .ok none =>
        match net with
        | .error _ => (.passthroughOriginal, store)
        | .ok r =>
          if respOk r then
            if putOk then
              (.rebuiltResponse r.status r.body,
               saveToCache url ⟨r.body, utf8Decode r.body⟩ r.etagHeader now store)
            else (.passthroughOriginal, store)
          else (.rawResponse r.status, store)
    else (.passthroughOriginal, store)

/-- What the wrapped `xhr.send` does: `cachedComplete` is the synthesized
completion (readyState, status, `response` bytes, `responseText`, and
whether a background revalidation was started); `realSend` is
`originalSend.apply(this, args)`. -/
inductive XhrOutput where
  | cachedComplete (readyState : Nat) (status : Nat) (response : Bytes)
      (responseText : String) (revalidating : Bool)
  | realSend
deriving DecidableEq, Repr

/-- Does an XHR outcome reach the network? Only the synthesized cache
completion does not. -/
def xhrUsesNetwork : XhrOutput → Bool
  | .cachedComplete _ _ _ _ _ => false
  | .realSend => true

/-- The wrapped `xhr.send` (lines 210-237), as a function of the explicit
lookup outcome, returning what happens and the store state after the send
(and, on the miss path, after the real request completes: the wrapper
installs no completion handler and performs no store write there, so the
store is unchanged). Hit: defines `readyState = 4`, `status = 200`,
`response = cached.data.buffer`, `responseText = cached.data.text`,
dispatches the completion events asynchronously, optionally starts a
background revalidation, and never calls the original `send`. Miss, or a
rejected `getCached` (caught at lines 232-234), or an ineligible
method/URL: the original `send` runs unchanged. -/
def xhrSend (method : Option String) (url : String)
    (lookup : Except Unit (Option CacheEntry)) (now : Nat)
    (store : CacheStore) : XhrOutput × CacheStore :=
  if xhrMethodEligible method && isStaticResource url then
    match lookup with
    | .error _ => (.realSend, store)
    | .ok (some cached) =>
      (.cachedComplete 4 200 cached.data.buffer cached.data.text
        (shouldUpdate cached now), store)
    | .ok none => (.realSend, store)
  else (.realSend, store)

/-! ## Claims -/

/-- Claim C6: the staleness predicate is exactly
`now - entry.timestamp > maxAge` with `maxAge` fixed at 86400000 ms
(24 hours): for every entry it returns `false` at age `maxAge - 1` and
`true` at age `maxAge + 1`. It is a pure, total Boolean function with no
failure mode. -/
theorem shouldUpdate_staleness_spec :
    CACHE_MAX_AGE = 86400000 ∧
    (∀ (cached : CacheEntry) (now : Nat),
      shouldUpdate cached now = decide (now - cached.timestamp > 86400000)) ∧
    (∀ cached : CacheEntry,
      shouldUpdate cached (cached.timestamp + (86400000 - 1)) = false) ∧
    (∀ cached : CacheEntry,
      shouldUpdate cached (cached.timestamp + (86400000 + 1)) = true) := by
  refine ⟨rfl, fun cached now => rfl, fun cached => ?_, fun cached => ?_⟩ <;>
    simp [shouldUpdate, CACHE_MAX_AGE]

/-- Claim C3: when revalidation receives an HTTP 304 response, the entry
stored afterwards has the same payload (bytes and text view) and the same
etag as before, and a strictly greater timestamp. The staleness
hypothesis is the condition under which the code ever starts a
revalidation (all three call sites are guarded by `shouldUpdate`), and it
forces the refreshed timestamp to be strictly greater. -/
theorem reval_304_preserves_payload (url : String) (cached : CacheEntry)
    (r : GmResponse) (now : Nat) (store : CacheStore)
    (hstale : shouldUpdate cached now = true) (h304 : r.status = 304) :
    updateCacheInBackground url cached (.success r) now true store url =
      some ⟨url, cached.data, cached.etag, now⟩ ∧
    cached.timestamp < now := by
  constructor
  · simp [updateCacheInBackground, h304, saveToCache]
  · simp [shouldUpdate, CACHE_MAX_AGE] at hstale
    omega

/-- Witness for C3 at a concrete stale entry and a 304 response. -/
theorem reval_304_preserves_payload_witness :
    shouldUpdate ⟨"https://example.com/app.js", ⟨[104, 105], "hi"⟩, some "v1", 0⟩
        86400001 = true ∧
    (304 : Nat) = 304 ∧
    (updateCacheInBackground "https://example.com/app.js"
        ⟨"https://example.com/app.js", ⟨[104, 105], "hi"⟩, some "v1", 0⟩
        (.success ⟨304, [], none⟩) 86400001 true (fun _ => none))
        "https://example.com/app.js" =
      some ⟨"https://example.com/app.js", ⟨[104, 105], "hi"⟩, some "v1", 86400001⟩ ∧
    (0 : Nat) < 86400001 := by
  refine ⟨by decide, rfl, ?_, ?_⟩
  · exact (reval_304_preserves_payload "https://example.com/app.js"
      ⟨"https://example.com/app.js", ⟨[104, 105], "hi"⟩, some "v1", 0⟩
      ⟨304, [], none⟩ 86400001 (fun _ => none) (by decide) rfl).1
  · exact (reval_304_preserves_payload "https://example.com/app.js"
      ⟨"https://example.com/app.js", ⟨[104, 105], "hi"⟩, some "v1", 0⟩
      ⟨304, [], none⟩ 86400001 (fun _ => none) (by decide) rfl).2

/-- Claim C4: when revalidation receives a successful (2xx) response with
a body, the entry stored afterwards has payload equal to the new response
bytes together with their UTF-8 text decoding, etag equal to the
response's ETag header (`none` when the origin omits it), and the fresh
timestamp `now` — a full replacement of the previous entry. -/
theorem reval_200_replaces_payload (url : String) (cached : CacheEntry)
    (r : GmResponse) (now : Nat) (store : CacheStore)
    (hok : respOk r = true) :
    updateCacheInBackground url cached (.success r) now true store url =
      some ⟨url, ⟨r.body, utf8Decode r.body⟩, r.etagHeader, now⟩ := by
  have h304 : r.status ≠ 304 := by
    simp [respOk] at hok
    omega
  simp [updateCacheInBackground, h304, hok, saveToCache]

/-- Witness for C4 at a concrete 200 response carrying new bytes and a
new etag. -/
theorem reval_200_replaces_payload_witness :
    respOk ⟨200, [104], some "v2"⟩ = true ∧
    (updateCacheInBackground "https://example.com/app.js"
        ⟨"https://example.com/app.js", ⟨[104, 105], "hi"⟩, some "v1", 0⟩
        (.success ⟨200, [104], some "v2"⟩) 86400001 true (fun _ => none))
        "https://example.com/app.js" =
      some ⟨"https://example.com/app.js", ⟨[104], utf8Decode [104]⟩, some "v2",
        86400001⟩ := by
  refine ⟨by decide, ?_⟩
  exact reval_200_replaces_payload "https://example.com/app.js"
    ⟨"https://example.com/app.js", ⟨[104, 105], "hi"⟩, some "v1", 0⟩
    ⟨200, [104], some "v2"⟩ 86400001 (fun _ => none) (by decide)

/-- Claim C5: on any revalidation outcome that is neither 2xx nor 304 —
including a transport failure (rejected network call) — no store write is
performed: the store is returned unchanged. The modelled function is
total (the source wraps the whole body in `try/catch` and swallows the
error), so no error reaches the caller. -/
theorem reval_other_outcome_no_write (url : String) (cached : CacheEntry)
    (outcome : RevalOutcome) (now : Nat) (putOk : Bool) (store : CacheStore)
    (h : outcome = RevalOutcome.failure ∨
      ∃ r, outcome = RevalOutcome.success r ∧ respOk r = false ∧
        r.status ≠ 304) :
    updateCacheInBackground url cached outcome now putOk store = store := by
  rcases h with h | ⟨r, hr, hok, h304⟩
  · subst h
    rfl
  · subst hr
    simp [updateCacheInBackground, h304, hok]

/-- Witness for C5 at a transport failure and at a concrete 404
response. -/
theorem reval_other_outcome_no_write_witness :
    (RevalOutcome.failure = RevalOutcome.failure ∨
      ∃ r, RevalOutcome.failure = RevalOutcome.success r ∧ respOk r = false ∧
        r.status ≠ 304) ∧
    updateCacheInBackground "https://example.com/app.js"
        ⟨"https://example.com/app.js", ⟨[104, 105], "hi"⟩, some "v1", 0⟩
        RevalOutcome.failure 86400001 true (fun _ => none) = (fun _ => none) ∧
    updateCacheInBackground "https://example.com/app.js"
        ⟨"https://example.com/app.js", ⟨[104, 105], "hi"⟩, some "v1", 0⟩
        (RevalOutcome.success ⟨404, [], none⟩) 86400001 true (fun _ => none) =
      (fun _ => none) := by
  refine ⟨Or.inl rfl, ?_, ?_⟩
  · exact reval_other_outcome_no_write "https://example.com/app.js"
      ⟨"https://example.com/app.js", ⟨[104, 105], "hi"⟩, some "v1", 0⟩
      RevalOutcome.failure 86400001 true (fun _ => none) (Or.inl rfl)
  · exact reval_other_outcome_no_write "https://example.com/app.js"
      ⟨"https://example.com/app.js", ⟨[104, 105], "hi"⟩, some "v1", 0⟩
      (RevalOutcome.success ⟨404, [], none⟩) 86400001 true (fun _ => none)
      (Or.inr ⟨⟨404, [], none⟩, rfl, by decide, by decide⟩)

/-- Claim C7: the revalidation request carries an `If-None-Match` header
exactly when the entry has an etag (whose value it carries), and an entry
with no etag is revalidated with no conditional header at all. The
hypothesis excludes an empty-string etag, which cannot arise in the
program: stored etags come from `Headers.get('ETag')`, which yields
`null` rather than the empty string when the header is absent, and the
`gmFetch` header parser drops empty values. -/
theorem reval_headers_conditional_iff (cached : CacheEntry)
    (hne : cached.etag ≠ some "") :
    (∀ e, cached.etag = some e →
      revalidationHeaders cached = [("If-None-Match", e)]) ∧
    (cached.etag = none → revalidationHeaders cached = []) := by
  constructor
  · intro e he
    have hne2 : e ≠ "" := by
      intro h
      subst h
      exact hne he
    simp [revalidationHeaders, he, hne2]
  · intro h
    simp [revalidationHeaders, h]

/-- Witness for C7: an entry with etag `"v1"` gets exactly the
`If-None-Match: v1` header, an entry with no etag gets none. -/
theorem reval_headers_conditional_iff_witness :
    ((⟨"u", ⟨[], ""⟩, some "v1", 0⟩ : CacheEntry).etag ≠ some "") ∧
    revalidationHeaders ⟨"u", ⟨[], ""⟩, some "v1", 0⟩ =
      [("If-None-Match", "v1")] ∧
    revalidationHeaders ⟨"u", ⟨[], ""⟩, none, 0⟩ = [] := by
  refine ⟨by decide, ?_, ?_⟩
  · exact (reval_headers_conditional_iff ⟨"u", ⟨[], ""⟩, some "v1", 0⟩
      (by decide)).1 "v1" rfl
  · exact (reval_headers_conditional_iff ⟨"u", ⟨[], ""⟩, none, 0⟩
      (by simp)).2 rfl

/-- Claim C1: with a stored entry for a cache-eligible URL, a GET issued
through either adapter completes with status 200 carrying exactly the
stored payload bytes (and, for XHR, the stored text view and terminal
ready-state 4), and the real network path — the original `send`, the
original `fetch`, `gmFetch` — is never invoked on the hit. The
eligibility hypotheses hold for every URL the program itself ever stores
(writes are guarded by `isStaticResource`) and for a plain GET. -/
theorem cache_hit_bypasses_network (m url : String) (init : Option FetchInit)
    (entry : CacheEntry) (now : Nat) (net : Except Unit GmResponse)
    (putOk : Bool) (store : CacheStore)
    (hm : xhrMethodEligible (some m) = true)
    (hf : fetchMethodEligible init = true)
    (hu : isStaticResource url = true) :
    xhrSend (some m) url (Except.ok (some entry)) now store =
      (XhrOutput.cachedComplete 4 200 entry.data.buffer entry.data.text
        (shouldUpdate entry now), store) ∧
    interceptFetch (.str url) init (Except.ok (some entry)) net now putOk
        store =
      (FetchOutput.cachedResponse 200 entry.data.buffer (contentTypeFor url)
        "HIT" (shouldUpdate entry now), store) ∧
    xhrUsesNetwork (xhrSend (some m) url (Except.ok (some entry)) now
      store).1 = false ∧
    fetchUsesNetwork (interceptFetch (.str url) init (Except.ok (some entry))
      net now putOk store).1 = false := by
  have hx : xhrSend (some m) url (Except.ok (some entry)) now store =
      (XhrOutput.cachedComplete 4 200 entry.data.buffer entry.data.text
        (shouldUpdate entry now), store) := by
    simp [xhrSend, hm, hu]
  have hfet : interceptFetch (.str url) init (Except.ok (some entry)) net now
      putOk store =
      (FetchOutput.cachedResponse 200 entry.data.buffer (contentTypeFor url)
        "HIT" (shouldUpdate entry now), store) := by
    simp [interceptFetch, getUrlString, hf, hu]
  refine ⟨hx, hfet, ?_, ?_⟩
  · simp [hx, xhrUsesNetwork]
  · simp [hfet, fetchUsesNetwork]

/-- Witness for C1: a fresh entry for `https://example.com/app.js`,
queried via an XHR whose method is the lowercase `get` (exercising the
case-insensitive method test) and via a `fetch` with no init. -/
theorem cache_hit_bypasses_network_witness :
    xhrMethodEligible (some "get") = true ∧
    fetchMethodEligible none = true ∧
    isStaticResource "https://example.com/app.js" = true ∧
    xhrSend (some "get") "https://example.com/app.js"
        (Except.ok (some ⟨"https://example.com/app.js", ⟨[104, 105], "hi"⟩,
          some "v1", 0⟩)) 0 (fun _ => none) =
      (XhrOutput.cachedComplete 4 200 [104, 105] "hi" false, fun _ => none) ∧
    interceptFetch (.str "https://example.com/app.js") none
        (Except.ok (some ⟨"https://example.com/app.js", ⟨[104, 105], "hi"⟩,
          some "v1", 0⟩)) (Except.error ()) 0 true (fun _ => none) =
      (FetchOutput.cachedResponse 200 [104, 105] "application/javascript"
        "HIT" false, fun _ => none) := by
  refine ⟨by decide, rfl, by decide, ?_, ?_⟩
  · exact (cache_hit_bypasses_network "get" "https://example.com/app.js" none
      ⟨"https://example.com/app.js", ⟨[104, 105], "hi"⟩, some "v1", 0⟩ 0
      (Except.error ()) true (fun _ => none) (by decide) rfl (by decide)).1
  · exact (cache_hit_bypasses_network "get" "https://example.com/app.js" none
      ⟨"https://example.com/app.js", ⟨[104, 105], "hi"⟩, some "v1", 0⟩ 0
      (Except.error ()) true (fun _ => none) (by decide) rfl (by decide)).2.1

/-- Claim C9: if the store lookup rejects, both adapters still complete
the request through the real network path (the original `send`, the
original unintercepted `fetch`) instead of raising the store error: the
XHR wrapper catches the rejection and falls through to the original
`send`; in the fetch wrapper the rejection escapes to the outer `catch`,
which falls back to the original `fetch`. -/
theorem store_error_falls_through (m url : String) (init : Option FetchInit)
    (now : Nat) (net : Except Unit GmResponse) (putOk : Bool)
    (store : CacheStore)
    (hm : xhrMethodEligible (some m) = true)
    (hf : fetchMethodEligible init = true)
    (hu : isStaticResource url = true) :
    xhrSend (some m) url (Except.error ()) now store =
      (XhrOutput.realSend, store) ∧
    interceptFetch (.str url) init (Except.error ()) net now putOk store =
      (FetchOutput.passthroughOriginal, store) ∧
    xhrUsesNetwork XhrOutput.realSend = true ∧
    fetchUsesNetwork FetchOutput.passthroughOriginal = true := by
  refine ⟨?_, ?_, rfl, rfl⟩
  · simp [xhrSend, hm, hu]
  · simp [interceptFetch, getUrlString, hf, hu]

/-- Witness for C9 at a concrete eligible GET whose store lookup
rejects. -/
theorem store_error_falls_through_witness :
    xhrMethodEligible (some "GET") = true ∧
    fetchMethodEligible none = true ∧
    isStaticResource "https://example.com/app.js" = true ∧
    xhrSend (some "GET") "https://example.com/app.js" (Except.error ()) 0
        (fun _ => none) = (XhrOutput.realSend, fun _ => none) ∧
    interceptFetch (.str "https://example.com/app.js") none (Except.error ())
        (Except.error ()) 0 true (fun _ => none) =
      (FetchOutput.passthroughOriginal, fun _ => none) := by
  refine ⟨by decide, rfl, by decide, ?_, ?_⟩
  · exact (store_error_falls_through "GET" "https://example.com/app.js" none 0
      (Except.error ()) true (fun _ => none) (by decide) rfl (by decide)).1
  · exact (store_error_falls_through "GET" "https://example.com/app.js" none 0
      (Except.error ()) true (fun _ => none) (by decide) rfl (by decide)).2.1

/-- Claim C10: eligibility lowercases the URL before testing the
extension, but the hit path's `Content-Type` is chosen by case-sensitive
`endsWith`; so a cached URL whose extension matches the allow-list only
after lowercasing is served from cache with
`Content-Type: application/octet-stream` instead of its extension's
type. -/
theorem hit_content_type_case_mismatch (url : String)
    (init : Option FetchInit) (entry : CacheEntry) (now : Nat)
    (net : Except Unit GmResponse) (putOk : Bool) (store : CacheStore)
    (hu : isStaticResource url = true)
    (hcs : ∀ ext ∈ STATIC_EXTENSIONS, jsEndsWith url ext = false)
    (hf : fetchMethodEligible init = true) :
    (interceptFetch (.str url) init (Except.ok (some entry)) net now putOk
      store).1 =
      FetchOutput.cachedResponse 200 entry.data.buffer
        "application/octet-stream" "HIT" (shouldUpdate entry now) := by
  have hct : contentTypeFor url = "application/octet-stream" := by
    have h1 := hcs ".js" (by simp [STATIC_EXTENSIONS])
    have h2 := hcs ".css" (by simp [STATIC_EXTENSIONS])
    have h3 := hcs ".png" (by simp [STATIC_EXTENSIONS])
    have h4 := hcs ".jpg" (by simp [STATIC_EXTENSIONS])
    have h5 := hcs ".jpeg" (by simp [STATIC_EXTENSIONS])
    have h6 := hcs ".gif" (by simp [STATIC_EXTENSIONS])
    have h7 := hcs ".svg" (by simp [STATIC_EXTENSIONS])
    simp [contentTypeFor, h1, h2, h3, h4, h5, h6, h7]
  simp [interceptFetch, getUrlString, hf, hu, hct]

/-- Witness for C10: `https://example.com/app.JS` is cache-eligible
(lowercasing matches `.js`) but matches no extension case-sensitively,
and its cached response carries `application/octet-stream`. -/
theorem hit_content_type_case_mismatch_witness :
    isStaticResource "https://example.com/app.JS" = true ∧
    (∀ ext ∈ STATIC_EXTENSIONS,
      jsEndsWith "https://example.com/app.JS" ext = false) ∧
    (interceptFetch (.str "https://example.com/app.JS") none
        (Except.ok (some ⟨"https://example.com/app.JS", ⟨[104], "h"⟩,
          some "v1", 0⟩))
        (Except.error ()) 0 true (fun _ => none)).1 =
      FetchOutput.cachedResponse 200 [104] "application/octet-stream" "HIT"
        false := by
  refine ⟨by decide, by decide, ?_⟩
  exact hit_content_type_case_mismatch "https://example.com/app.JS" none
    ⟨"https://example.com/app.JS", ⟨[104], "h"⟩, some "v1", 0⟩ 0
    (Except.error ()) true (fun _ => none) (by decide) (by decide) rfl

/-- Claim C2 counterexample: the claim asserts that on an XHR miss the
adapter writes a new entry into the store after the real request's
successful completion. In the source, the miss path is only
`return originalSend.apply(this, args)` — the wrapper installs no
completion handler and contains no `saveToCache` call — so after the
real request completes the store still has no entry for the URL. Here: a
cache-eligible GET for `https://example.com/app.js`, a miss
(`getCached` resolved to nothing), and the store after the send is still
empty at that URL. -/
theorem xhr_miss_write_counterexample :
    xhrMethodEligible (some "GET") = true ∧
    isStaticResource "https://example.com/app.js" = true ∧
    (xhrSend (some "GET") "https://example.com/app.js" (Except.ok none) 0
        (fun _ => none)).1 = XhrOutput.realSend ∧
    (xhrSend (some "GET") "https://example.com/app.js" (Except.ok none) 0
        (fun _ => none)).2 "https://example.com/app.js" = none := by
  exact ⟨by decide, by decide, by decide, by decide⟩

/-- Claim C2 (amended): on an XHR-adapter cache miss the wrapper
delegates to the real `send` unchanged and performs no Cache Store write
at all — the caller's view of the response is unmodified, and cache
population happens only through the fetch adapter's miss path and the
page-resource warm-up, never through the XHR adapter. -/
theorem xhr_miss_delegates_no_write (method : Option String) (url : String)
    (now : Nat) (store : CacheStore) :
    xhrSend method url (Except.ok none) now store =
      (XhrOutput.realSend, store) := by
  unfold xhrSend
  cases h : xhrMethodEligible method && isStaticResource url <;> simp [h]

/-- Claim C8 counterexample: the claim asserts that every request whose
method is absent or case-insensitively GET is treated as cache-eligible
by method. But the fetch adapter compares `init.method === 'GET'`
case-sensitively: with method `"get"` and a stored entry for a static
URL, the fetch wrapper bypasses the cache and calls the original fetch.
The XHR adapter also rejects an absent method
(`this._method?.toUpperCase()` is `undefined`). -/
theorem method_case_sensitivity_counterexample :
    fetchMethodEligible (some ⟨some "get"⟩) = false ∧
    xhrMethodEligible none = false ∧
    isStaticResource "https://example.com/app.js" = true ∧
    (interceptFetch (.str "https://example.com/app.js")
        (some ⟨some "get"⟩)
        (Except.ok (some ⟨"https://example.com/app.js", ⟨[104], "h"⟩,
          some "v1", 0⟩))
        (Except.error ()) 0 true (fun _ => none)).1 =
      FetchOutput.passthroughOriginal := by
  exact ⟨by decide, rfl, by decide, by decide⟩

/-- Claim C8 (amended): a request is served from or written to the cache
only when its method is absent or case-insensitively GET; precisely, the
fetch adapter's method test accepts exactly an absent init, an absent
method, or the exact string `"GET"` (case-sensitive), and the XHR
adapter's test accepts exactly a present method whose ASCII uppercasing
is `"GET"`; any other method (e.g. a POST to a `.js` URL) bypasses the
cache entirely regardless of store contents. -/
theorem method_eligibility_exact :
    (∀ init : Option FetchInit, fetchMethodEligible init = true ↔
      (init = none ∨ ∃ i : FetchInit, init = some i ∧
        (i.method = none ∨ i.method = some "GET"))) ∧
    (∀ m : Option String, xhrMethodEligible m = true ↔
      ∃ s : String, m = some s ∧
        (strCodes s).map upperCode = strCodes "GET") ∧
    (∀ (url : String) (lk : Except Unit (Option CacheEntry))
        (net : Except Unit GmResponse) (now : Nat) (putOk : Bool)
        (store : CacheStore),
      interceptFetch (.str url) (some ⟨some "POST"⟩) lk net now putOk store =
        (FetchOutput.passthroughOriginal, store)) ∧
    (∀ (url : String) (lk : Except Unit (Option CacheEntry)) (now : Nat)
        (store : CacheStore),
      xhrSend (some "POST") url lk now store =
        (XhrOutput.realSend, store)) := by
  refine ⟨?_, ?_, ?_, ?_⟩
  · intro init
    match init with
    | none => simp [fetchMethodEligible]
    | some ⟨none⟩ => simp [fetchMethodEligible]
    | some ⟨some mm⟩ => simp [fetchMethodEligible]
  · intro m
    match m with
    | none => simp [xhrMethodEligible]
    | some s => simp [xhrMethodEligible]
  · intro url lk net now putOk store
    have hP : fetchMethodEligible (some ⟨some "POST"⟩) = false := by decide
    simp [interceptFetch, getUrlString, hP]
  · intro url lk now store
    have hP : xhrMethodEligible (some "POST") = false := by decide
    simp [xhrSend, hP]

end StaticResCache
